import Mathlib

/-!
Verification development for the `ftp_server.py` service supervisor.

The definitions below are a shallow embedding of `src/ftp_server.py`:

* `Store` models the sqlite `settings` table consumed through
  `get_setting` / `set_setting` / `init_db` (key/value rows, keyed by a
  `TEXT PRIMARY KEY`).
* `Cfg` models the supervisor configuration variables
  (`host`, `port`, `username`, `password`, `folder`).
* `MState` models the interactive-mode supervisor state: the config
  variables, the `server` handle (the `FTPServer` instance, remembered
  together with the config it was built from), the `server_thread`
  liveness flag, the `server_running` flag, the settings store, and the
  list of console lines printed so far.
* `stepMenu` is the body of the interactive `while True` menu loop, one
  constructor of `MenuChoice` per menu branch.

External collaborators (socket probing, OS command output, `pyftpdlib`
bind results, `os.path.abspath`'s current directory) are supplied through
explicit environment records; a Python exception raised by a primitive is
modelled as `Except.error` (or as `none` in the environment record), and a
`try/except` block in the source is modelled by a `match` that maps the
error branch to what the `except` clause does.
-/

/-- Python `s.startswith(pre)`, computed over the character lists. -/
def pyStartsWith (s pre : String) : Bool :=
  pre.toList.isPrefixOf s.toList

/-- ASCII model of Python `str.isdigit` as used on port inputs:
true exactly for a non-empty string all of whose characters are digits. -/
def strIsDigit (s : String) : Bool :=
  !s.isEmpty && s.toList.all Char.isDigit

/-- Model of Python `int(...)` on the decimal-digit strings this program
feeds it (port values guarded by `isdigit`, and stored port values that
were themselves written from integers). -/
def pyInt (s : String) : Nat :=
  s.toList.foldl (fun acc c => acc * 10 + (c.toNat - 48)) 0

/-- Modelled from the Python standard library `os.path.abspath`: join the
argument with the current working directory (absolute arguments and the
empty string are resolved as `abspath` does; path normalisation of `.`
and `..` segments is not needed by any claim). -/
def abspath (cwd s : String) : String :=
  if s = "" then cwd
  else if pyStartsWith s "/" then s
  else cwd ++ "/" ++ s

/-! ## The settings store (`init_db` / `get_setting` / `set_setting`) -/

/-- The sqlite `settings` table: key/value rows. The key column is a
primary key, so lookups take the unique (here: first) matching row. -/
abbrev Store := List (String × String)

/-- `SELECT value FROM settings WHERE key=?` -/
def storeLookup (st : Store) (k : String) : Option String :=
  match st.find? (fun p => p.1 = k) with
  | some p => some p.2
  | none => none

/-- `get_setting(key, default)` -/
def get_setting (st : Store) (k d : String) : String :=
  match storeLookup st k with
  | some v => v
  | none => d

/-- `set_setting(key, value)`: `INSERT OR REPLACE` on the primary key. -/
def set_setting (st : Store) (k v : String) : Store :=
  (k, v) :: st.filter (fun p => p.1 ≠ k)

/-- `INSERT OR IGNORE INTO settings(key,value)` -/
def insertOrIgnore (st : Store) (k v : String) : Store :=
  match storeLookup st k with
  | some _ => st
  | none => (k, v) :: st

/-- `init_db()`: create the table, delete any persisted `folder` rows,
then insert the defaults `username=user`, `password=12345`, `port=2121`
only where the key is absent. -/
def init_db (st : Store) : Store :=
  let st1 := st.filter (fun p => p.1 ≠ "folder")
  let st2 := insertOrIgnore st1 "username" "user"
  let st3 := insertOrIgnore st2 "password" "12345"
  insertOrIgnore st3 "port" "2121"

/-! ## Supervisor configuration and interactive state -/

/-- The supervisor configuration variables of `main`
(`host`, `port`, `username`, `password`, `folder`). -/
structure Cfg where
  host : String
  port : Nat
  username : String
  password : String
  folder : String
deriving DecidableEq, Repr

/-- Environment of the interactive loop: whether `FTPServer((h,p),...)`
binds for a given config, the working directory feeding `os.path.abspath`,
the result of `get_local_ip()` in the credentials view (`none` models a
raised exception, which that call site catches), and whether
`close_all()` raises inside `stop_server`. -/
structure Env where
  bindOk : Cfg → Bool
  cwd : String
  primaryIp : Option String
  closeRaises : Bool

/-- Interactive-mode supervisor state: config variables, the live
`server` handle (kept with the config it was constructed from), the
`server_thread` liveness flag, `server_running`, the settings store and
the console output. -/
structure MState where
  cfg : Cfg
  server : Option Cfg
  thread : Bool
  running : Bool
  store : Store
  output : List String
deriving DecidableEq

/-- `create_server_instance(h, p, user, pwd, folder_path)`: returns the
bound server or `None`, printing the bind error in the failure case. -/
def create_server_instance (env : Env) (c : Cfg) : Option Cfg × List String :=
  if env.bindOk c then (some c, [])
  else (none, ["Failed to bind server to " ++ c.host ++ ":" ++ toString c.port])

/-- `srv.close_all()`: may raise, controlled by the environment. -/
def close_all (env : Env) : Except String Unit :=
  if env.closeRaises then Except.error "close_all failed" else Except.ok ()

/-- `stop_server(srv)`: if a server is live, `close_all` inside
`try/except pass`; then `server_thread.join(timeout=2)` (never raises);
finally `server_running = False`.  The `Except` result type records that
every internal raise point is caught. -/
def stop_serverE (env : Env) (s : MState) : Except String MState :=
  let s1 : MState :=
    match s.server with
    | some _ =>
      match close_all env with
      | Except.ok _ => s
      | Except.error _ => s
    | none => s
  Except.ok { s1 with running := false }

/-- The menu loop wraps `stop_server(server)` in one more
`try/except pass`. -/
def tryStop (env : Env) (s : MState) : MState :=
  match stop_serverE env s with
  | Except.ok s1 => s1
  | Except.error _ => s

/-- `start_server(srv)` on a non-`None` server: spawn the daemon thread
running `serve_forever` and set `server_running = True`. -/
def start_server (s : MState) (h : Cfg) : MState :=
  { s with server := some h, thread := true, running := true }

/-- One menu selection, as read in the `while True` loop. -/
inductive MenuChoice where
  | changeUser (input : String)
  | changePass (input : String)
  | changePort (input : String)
  | changeFolder (input : String)
  | restartSrv
  | showCreds
  | quit
  | unknown
deriving DecidableEq, Repr

/-- The shared stop → `create_server_instance` → start/report sequence
of menu choices 1–5, run after the config variables have been updated:
stop the old server, build a new instance from the current config, start
it and report on success, report failure and keep `server = None`
otherwise. -/
def restartWith (env : Env) (s : MState) (okMsg failMsg : String) : MState :=
  let s1 := tryStop env s
  match create_server_instance env s1.cfg with
  | (some h, msgs) =>
    let s2 := start_server s1 h
    { s2 with output := s2.output ++ msgs ++ [okMsg] }
  | (none, msgs) =>
    { s1 with server := none, output := s1.output ++ msgs ++ [failMsg] }

/-- The body of the interactive menu loop: one case per choice,
transcribed branch by branch from `main`. -/
def stepMenu (env : Env) (e : MenuChoice) (s : MState) : MState :=
  match e with
  | MenuChoice.changeUser u =>
    if u = "" then s
    else
      let s1 := { s with cfg := { s.cfg with username := u },
                         output := s.output ++
                           ["Username changed to: " ++ u ++ " - restarting server..."] }
      let s2 := restartWith env s1
        ("Server restarted on " ++ s1.cfg.host ++ ":" ++ toString s1.cfg.port)
        "Failed to restart server after username change."
      { s2 with store := set_setting s2.store "username" u }
  | MenuChoice.changePass p =>
    if p = "" then s
    else
      let s1 := { s with cfg := { s.cfg with password := p },
                         output := s.output ++ ["Password updated - restarting server..."] }
      let s2 := restartWith env s1
        ("Server restarted on " ++ s1.cfg.host ++ ":" ++ toString s1.cfg.port)
        "Failed to restart server after password change."
      { s2 with store := set_setting s2.store "password" p }
  | MenuChoice.changePort inp =>
    if strIsDigit inp then
      let s1 := { s with cfg := { s.cfg with port := pyInt inp },
                         output := s.output ++
                           ["Port set to " ++ toString (pyInt inp) ++ " - restarting now..."] }
      restartWith env s1
        ("Server restarted on " ++ s1.cfg.host ++ ":" ++ toString (pyInt inp))
        "Failed to restart server on the new port. Check for port conflicts and try again."
    else
      { s with output := s.output ++ ["Invalid port"] }
  | MenuChoice.changeFolder f =>
    if f = "" then s
    else
      let s1 := { s with cfg := { s.cfg with folder := abspath env.cwd f },
                         output := s.output ++
                           ["Folder set to " ++ abspath env.cwd f ++ " - restarting server..."] }
      restartWith env s1
        ("Server restarted on " ++ s1.cfg.host ++ ":" ++ toString s1.cfg.port)
        "Failed to restart server after folder change."
  | MenuChoice.restartSrv =>
    let s1 := tryStop env { s with output := s.output ++ ["Restarting server with current settings..."] }
    (match create_server_instance env s1.cfg with
     | (some h, msgs) =>
       let s2 := start_server s1 h
       { s2 with output := s2.output ++ msgs ++
           ["Server restarted on " ++ s1.cfg.host ++ ":" ++ toString s1.cfg.port] }
     | (none, msgs) =>
       { s1 with server := none,
                 output := s1.output ++ msgs ++
                   ["Failed to restart server. Check settings and try again."],
                 store := set_setting s1.store "port" (toString s1.cfg.port) })
  | MenuChoice.showCreds =>
    let ipLine := match env.primaryIp with
      | some ip => "ip: " ++ ip
      | none => "ip: (unknown)"
    { s with output := s.output ++
        [ipLine, "port: " ++ toString s.cfg.port,
         "username: " ++ s.cfg.username, "password: " ++ s.cfg.password] }
  | MenuChoice.quit =>
    tryStop env { s with output := s.output ++ ["Stopping server and exiting..."] }
  | MenuChoice.unknown =>
    { s with output := s.output ++ ["Unknown selection"] }

/-- Run the menu loop over a list of operator selections; choice 7
(`quit`) stops the server and returns from `main`. -/
def runMenu (env : Env) : List MenuChoice → MState → MState
  | [], s => s
  | e :: rest, s =>
    if e = MenuChoice.quit then stepMenu env e s
    else runMenu env rest (stepMenu env e s)

/-- Interactive-mode startup: `init_db`, read settings from the store,
resolve the prompted folder, create and start the initial server (or
report failure and stay stopped). -/
def startInteractive (env : Env) (st0 : Store) (folderInput : String) : MState :=
  let st := init_db st0
  let cfg : Cfg :=
    { host := "0.0.0.0",
      port := pyInt (get_setting st "port" "2121"),
      username := get_setting st "username" "user",
      password := get_setting st "password" "12345",
      folder := abspath env.cwd folderInput }
  let s0 : MState :=
    { cfg := cfg, server := none, thread := false, running := false,
      store := st, output := [] }
  match create_server_instance env cfg with
  | (some h, msgs) =>
    let s1 := start_server s0 h
    { s1 with output := msgs ++
        ["Server started on " ++ cfg.host ++ ":" ++ toString cfg.port] }
  | (none, msgs) =>
    { s0 with output := msgs ++
        ["Failed to start server on default settings. Use menu to reconfigure."] }

/-- The candidate configuration a menu choice attempts to restart with,
when its input passes the source's guard (`none` when the choice does not
rebuild the server or the input is rejected).  Choice 5 restarts with the
unchanged current config. -/
def candidate (env : Env) (e : MenuChoice) (c : Cfg) : Option Cfg :=
  match e with
  | MenuChoice.changeUser u => if u = "" then none else some { c with username := u }
  | MenuChoice.changePass p => if p = "" then none else some { c with password := p }
  | MenuChoice.changePort inp =>
    if strIsDigit inp then some { c with port := pyInt inp } else none
  | MenuChoice.changeFolder f =>
    if f = "" then none else some { c with folder := abspath env.cwd f }
  | MenuChoice.restartSrv => some c
  | _ => none

/-! ## Address discovery (`get_local_ip`, `get_all_local_ips`) -/

/-- Environment of the discovery layer.  Each field is the outcome of one
probing primitive; `none` models that primitive raising an exception.
The OS-command fields carry the list of IPv4 strings the regular
expression extracts from the command output (the regex itself runs over
arbitrary external text and is modelled by its extraction result). -/
structure NetEnv where
  udpProbe : Option String
  isWindows : Bool
  ipconfigIPs : Option (List String)
  ipAddrIPs : Option (List String)
  ifconfigIPs : Option (List String)
  hostnameResolve : Option String
  hostbynameExIPs : Option (List String)
  addrinfoIPs : Option (List String)

/-- The UDP connect trick (`socket.connect(("8.8.8.8", 80))` then
`getsockname`). -/
def udpProbeIp (env : NetEnv) : Except Unit String :=
  match env.udpProbe with
  | some ip => Except.ok ip
  | none => Except.error ()

/-- `socket.gethostbyname(socket.gethostname())`. -/
def hostnameIp (env : NetEnv) : Except Unit String :=
  match env.hostnameResolve with
  | some ip => Except.ok ip
  | none => Except.error ()

/-- `get_local_ip()`: the UDP probe inside `try`, with
`gethostbyname(gethostname())` as the `except` fallback.  The fallback
itself is not guarded, so its failure propagates to the caller. -/
def get_local_ip (env : NetEnv) : Except Unit String :=
  match udpProbeIp env with
  | Except.ok ip => Except.ok ip
  | Except.error _ => hostnameIp env

/-- Strategy 2 of `get_all_local_ips`: parse OS command output —
`ipconfig` on Windows, else `ip -4 addr` inside `try` with `ifconfig`
as the inner fallback. -/
def osCommandIPs (env : NetEnv) : Except Unit (List String) :=
  if env.isWindows then
    match env.ipconfigIPs with
    | some l => Except.ok l
    | none => Except.error ()
  else
    match env.ipAddrIPs with
    | some l => Except.ok l
    | none =>
      match env.ifconfigIPs with
      | some l => Except.ok l
      | none => Except.error ()

/-- `socket.gethostbyname_ex(hostname)[2]`. -/
def hostbynameExList (env : NetEnv) : Except Unit (List String) :=
  match env.hostbynameExIPs with
  | some l => Except.ok l
  | none => Except.error ()

/-- The `socket.getaddrinfo(hostname, None)` loop, keeping `AF_INET`
entries. -/
def addrinfoList (env : NetEnv) : Except Unit (List String) :=
  match env.addrinfoIPs with
  | some l => Except.ok l
  | none => Except.error ()

/-- Code-point comparison of character lists: how Python `sorted`
compares strings. -/
def lexLe : List Char → List Char → Bool
  | [], _ => true
  | _ :: _, [] => false
  | x :: xs, y :: ys =>
    if x.toNat < y.toNat then true
    else if x.toNat = y.toNat then lexLe xs ys
    else false

def insertAsc (x : String) : List String → List String
  | [] => [x]
  | y :: ys => if lexLe x.toList y.toList then x :: y :: ys else y :: insertAsc x ys

/-- Python `sorted` over the accumulated set of address strings (the set
is modelled as a list deduplicated here, where the source converts the
set into a sorted list). -/
def pySorted (l : List String) : List String :=
  (l.dedup).foldr insertAsc []

/-- `get_all_local_ips()`: union the four strategies, each inside its own
`try/except pass`; filter out empty and loopback (`"127."`-prefixed)
addresses; fall back to `["127.0.0.1"]` when nothing is left.  The
`Except` result type records that every raise point is caught. -/
def get_all_local_ips (env : NetEnv) : Except Unit (List String) :=
  let ips : List String := []
  let ips := match udpProbeIp env with
    | Except.ok ip => ips ++ [ip]
    | Except.error _ => ips
  let ips := match osCommandIPs env with
    | Except.ok l => ips ++ l
    | Except.error _ => ips
  let ips := match hostbynameExList env with
    | Except.ok l => ips ++ l
    | Except.error _ => ips
  let ips := match addrinfoList env with
    | Except.ok l => ips ++ l
    | Except.error _ => ips
  let clean := pySorted (ips.filter (fun p => !p.isEmpty && !pyStartsWith p "127."))
  Except.ok (if clean.isEmpty then ["127.0.0.1"] else clean)

/-! ## Password generation (`secrets.token_urlsafe`) -/

/-- The URL-safe base64 alphabet. -/
def b64Alphabet : List Char :=
  "ABCDEFGHIJKLMNOPQRSTUVWXYZabcdefghijklmnopqrstuvwxyz0123456789-_".toList

/-- Sextet to URL-safe base64 character. -/
def b64c (n : Nat) : Char := b64Alphabet.getD n 'A'

/-- URL-safe base64 of a byte list, with the `=` padding stripped as
`token_urlsafe` does. -/
def b64encodeBytes : List Nat → List Char
  | [] => []
  | [a] => [b64c (a / 4), b64c (a % 4 * 16)]
  | [a, b] => [b64c (a / 4), b64c (a % 4 * 16 + b / 16), b64c (b % 16 * 4)]
  | a :: b :: c :: rest =>
    b64c (a / 4) :: b64c (a % 4 * 16 + b / 16) :: b64c (b % 16 * 4 + c / 64) ::
      b64c (c % 64) :: b64encodeBytes rest

/-- Modelled from the Python standard library: `secrets.token_urlsafe(n)`
is the URL-safe base64 encoding (padding stripped) of `n` random bytes
from `os.urandom`; the random bytes are passed explicitly here. -/
def token_urlsafe (bytes : List Nat) : String :=
  String.mk (b64encodeBytes bytes)

/-- The password fallback of the run path (`if not password: password =
secrets.token_urlsafe(12)`), with the 12 random source bytes explicit. -/
def resolvePassword (password : String) (rnd : List Nat) : String :=
  if password = "" then token_urlsafe rnd else password

/-- The concise console block printed before serving (`ip:`, `port:`,
`username:`, `password:`, `all_ips:` lines). -/
def infoLines (localIp : String) (port : Nat) (username password : String)
    (allIps : List String) : List String :=
  ["ip: " ++ localIp,
   "port: " ++ toString port,
   "username: " ++ username,
   "password: " ++ password,
   "all_ips: " ++ String.intercalate ", " allIps]

/-! ## Non-interactive argument handling -/

/-- One iteration of the positional-argument scan of non-interactive
mode: skip `--noninteractive`, put the first argument not starting with
`--` into `folder_arg` (the first component), the second into `port_arg`
(the second component). -/
def scanArg (acc : Option String × Option String) (a : String) :
    Option String × Option String :=
  if a = "--noninteractive" then acc
  else if !pyStartsWith a "--" && acc.1 = none then (some a, acc.2)
  else if !pyStartsWith a "--" && acc.2 = none then (acc.1, some a)
  else acc

/-- The positional-argument scan of non-interactive mode over
`sys.argv[1:]`. -/
def parsePositionals (args : List String) : Option String × Option String :=
  args.foldl scanArg (none, none)

/-- `folder = os.path.abspath(folder_arg or get_setting("folder",
os.getcwd()))`: Python `or` takes the store/cwd fallback when
`folder_arg` is `None` or the empty string. -/
def chooseFolder (folderArg : Option String) (st : Store) (cwd : String) : String :=
  let fallback := get_setting st "folder" cwd
  abspath cwd (match folderArg with
    | some f => if f = "" then fallback else f
    | none => fallback)

/-- `port = int(port_arg) if port_arg and str(port_arg).isdigit() else
int(get_setting("port", "2121"))`. -/
def choosePort (portArg : Option String) (st : Store) : Nat :=
  match portArg with
  | some p => if strIsDigit p then pyInt p else pyInt (get_setting st "port" "2121")
  | none => pyInt (get_setting st "port" "2121")

/-! ## Sample configurations and environments for concrete evaluations -/

/-- The default configuration of the example runs. -/
def cfg2121 : Cfg :=
  { host := "0.0.0.0", port := 2121, username := "user", password := "12345",
    folder := "/srv/share" }

/-- A supervisor state whose server is live on the default config. -/
def runningState : MState :=
  { cfg := cfg2121, server := some cfg2121, thread := true, running := true,
    store := init_db [], output := [] }

/-- Environment in which every bind attempt fails. -/
def envBindNone : Env :=
  { bindOk := fun _ => false, cwd := "/srv", primaryIp := none, closeRaises := false }

/-- Environment in which every bind attempt succeeds. -/
def envBindAll : Env :=
  { bindOk := fun _ => true, cwd := "/srv", primaryIp := none, closeRaises := false }

/-- Environment in which only port 2121 can be bound. -/
def envBind2121 : Env :=
  { bindOk := fun c => decide (c.port = 2121), cwd := "/srv", primaryIp := none,
    closeRaises := false }

/-- A discovery environment where only the UDP probe succeeds. -/
def netEnvProbeOnly : NetEnv :=
  { udpProbe := some "10.0.0.5", isWindows := false, ipconfigIPs := none,
    ipAddrIPs := none, ifconfigIPs := none, hostnameResolve := none,
    hostbynameExIPs := none, addrinfoIPs := none }

/-- A discovery environment where every probing primitive fails. -/
def netEnvAllFail : NetEnv :=
  { udpProbe := none, isWindows := false, ipconfigIPs := none,
    ipAddrIPs := none, ifconfigIPs := none, hostnameResolve := none,
    hostbynameExIPs := none, addrinfoIPs := none }

/-- Sextet value of a URL-safe base64 character (decoder, for the
injectivity argument). -/
def b64d (c : Char) : Nat := b64Alphabet.indexOf c

/-- Inverse of `b64encodeBytes` on padding-free encodings. -/
def b64decodeChars : List Char → List Nat
  | [] => []
  | [_] => []
  | [w, x] => [b64d w * 4 + b64d x / 16]
  | [w, x, y] => [b64d w * 4 + b64d x / 16, b64d x % 16 * 16 + b64d y / 4]
  | w :: x :: y :: z :: rest =>
    (b64d w * 4 + b64d x / 16) :: (b64d x % 16 * 16 + b64d y / 4) ::
      (b64d y % 4 * 64 + b64d z) :: b64decodeChars rest

/-! ## Basic lemmas about the embedded operations -/

theorem stop_serverE_eq (env : Env) (s : MState) :
    stop_serverE env s = Except.ok { s with running := false } := by
  unfold stop_serverE close_all
  cases hs : s.server <;> cases hc : env.closeRaises <;> simp [hs, hc]

theorem tryStop_eq (env : Env) (s : MState) :
    tryStop env s = { s with running := false } := by
  unfold tryStop
  rw [stop_serverE_eq]

theorem find?_key_filter (st : List (String × String)) (k k2 : String) (h : k2 ≠ k) :
    (st.filter (fun p => p.1 ≠ k)).find? (fun p => p.1 = k2) =
      st.find? (fun p => p.1 = k2) := by
  induction st with
  | nil => rfl
  | cons a rest ih =>
    rw [List.filter_cons]
    by_cases hb : a.1 = k2
    · have hp : a.1 ≠ k := fun hh => h (hb ▸ hh)
      rw [if_pos (by simpa using hp)]
      rw [List.find?_cons, List.find?_cons, decide_eq_true hb]
    · by_cases hp : a.1 = k
      · rw [if_neg (by simpa using hp)]
        rw [ih, List.find?_cons, decide_eq_false hb]
      · rw [if_pos (by simpa using hp)]
        rw [List.find?_cons, List.find?_cons, decide_eq_false hb]
        exact ih

theorem storeLookup_cons_ne (a : String × String) (st : Store) (k : String)
    (h : ¬ (a.1 = k)) : storeLookup (a :: st) k = storeLookup st k := by
  unfold storeLookup
  simp [List.find?_cons, h]

theorem storeLookup_cons_self (st : Store) (k v : String) :
    storeLookup ((k, v) :: st) k = some v := by
  unfold storeLookup
  simp [List.find?_cons]

theorem storeLookup_set_setting_ne (st : Store) (k v k2 : String) (h : k2 ≠ k) :
    storeLookup (set_setting st k v) k2 = storeLookup st k2 := by
  unfold set_setting
  rw [storeLookup_cons_ne (k, v) _ k2 (fun hh => h hh.symm)]
  unfold storeLookup
  rw [find?_key_filter st k k2 h]

theorem storeLookup_insertOrIgnore_ne (st : Store) (k v k2 : String) (h : k2 ≠ k) :
    storeLookup (insertOrIgnore st k v) k2 = storeLookup st k2 := by
  unfold insertOrIgnore
  cases hl : storeLookup st k
  · simpa using storeLookup_cons_ne (k, v) st k2 (fun hh => h hh.symm)
  · rfl

theorem storeLookup_init_db_folder (st : Store) :
    storeLookup (init_db st) "folder" = none := by
  simp only [init_db]
  rw [storeLookup_insertOrIgnore_ne _ _ _ _ (by decide),
      storeLookup_insertOrIgnore_ne _ _ _ _ (by decide),
      storeLookup_insertOrIgnore_ne _ _ _ _ (by decide)]
  unfold storeLookup
  have hf : (st.filter (fun p => p.1 ≠ "folder")).find? (fun p => p.1 = "folder") = none := by
    apply List.find?_eq_none.mpr
    intro x hx
    have hmem := List.of_mem_filter hx
    simp only [decide_eq_true_eq] at hmem ⊢
    exact hmem
  rw [hf]

theorem storeLookup_init_db_port (st : Store) (h : storeLookup st "port" = none) :
    storeLookup (init_db st) "port" = some "2121" := by
  simp only [init_db]
  have h1 : storeLookup (st.filter (fun p => p.1 ≠ "folder")) "port" = none := by
    unfold storeLookup at h ⊢
    rw [find?_key_filter st "folder" "port" (by decide)]
    exact h
  have h2 : storeLookup
      (insertOrIgnore (st.filter (fun p => p.1 ≠ "folder")) "username" "user") "port" = none := by
    rw [storeLookup_insertOrIgnore_ne _ _ _ _ (by decide)]
    exact h1
  have h3 : storeLookup
      (insertOrIgnore (insertOrIgnore (st.filter (fun p => p.1 ≠ "folder"))
        "username" "user") "password" "12345") "port" = none := by
    rw [storeLookup_insertOrIgnore_ne _ _ _ _ (by decide)]
    exact h2
  generalize hg : insertOrIgnore (insertOrIgnore (st.filter (fun p => p.1 ≠ "folder"))
      "username" "user") "password" "12345" = st3 at h3 ⊢
  unfold insertOrIgnore
  rw [h3]
  exact storeLookup_cons_self _ _ _

theorem restartWith_store (env : Env) (s : MState) (a b : String) :
    (restartWith env s a b).store = s.store := by
  unfold restartWith
  rw [tryStop_eq]
  cases hb : env.bindOk s.cfg <;>
    simp [create_server_instance, hb, start_server]

theorem startInteractive_store (env : Env) (st0 : Store) (fi : String) :
    (startInteractive env st0 fi).store = init_db st0 := by
  simp only [startInteractive]
  split <;> simp [start_server]

theorem stepMenu_store_no_folder (env : Env) (e : MenuChoice) (s : MState)
    (h : storeLookup s.store "folder" = none) :
    storeLookup (stepMenu env e s).store "folder" = none := by
  cases e with
  | changeUser u =>
    by_cases hu : u = ""
    · simpa [stepMenu, hu] using h
    · simp only [stepMenu, hu, if_false, if_neg]
      rw [storeLookup_set_setting_ne _ _ _ _ (by decide), restartWith_store]
      exact h
  | changePass p =>
    by_cases hp : p = ""
    · simpa [stepMenu, hp] using h
    · simp only [stepMenu, hp, if_false, if_neg]
      rw [storeLookup_set_setting_ne _ _ _ _ (by decide), restartWith_store]
      exact h
  | changePort inp =>
    by_cases hd : strIsDigit inp
    · simp only [stepMenu, hd, if_pos, if_true]
      rw [restartWith_store]
      exact h
    · simpa [stepMenu, hd] using h
  | changeFolder f =>
    by_cases hf : f = ""
    · simpa [stepMenu, hf] using h
    · simp only [stepMenu, hf, if_false, if_neg]
      rw [restartWith_store]
      exact h
  | restartSrv =>
    simp only [stepMenu]
    rw [tryStop_eq]
    cases hb : env.bindOk s.cfg <;>
      simp [create_server_instance, hb, start_server]
    · rw [storeLookup_set_setting_ne _ _ _ _ (by decide)]
      exact h
    · exact h
  | showCreds => simpa [stepMenu] using h
  | quit =>
    simp only [stepMenu]
    rw [tryStop_eq]
    exact h
  | unknown => simpa [stepMenu] using h

theorem runMenu_store_no_folder (env : Env) (es : List MenuChoice) (s : MState)
    (h : storeLookup s.store "folder" = none) :
    storeLookup (runMenu env es s).store "folder" = none := by
  induction es generalizing s with
  | nil => exact h
  | cons e rest ih =>
    unfold runMenu
    by_cases he : e = MenuChoice.quit
    · simp only [he, if_true, if_pos]
      exact stepMenu_store_no_folder env _ s h
    · simp only [he, if_false, if_neg, not_false_iff]
      exact ih _ (stepMenu_store_no_folder env e s h)

/-- Claim C6: `stop_server` is idempotent and total — for every
environment and state, including one that was never started (no live
handle, no background thread), it returns normally (`Except.ok`: every
internal raise point is caught), leaves `running = false`, and a second
call returns exactly the state the first one produced. -/
theorem stop_server_idempotent_total (env : Env) (s : MState) :
    stop_serverE env s = Except.ok { s with running := false } ∧
    stop_serverE env { s with running := false } = Except.ok { s with running := false } :=
  ⟨stop_serverE_eq env s, stop_serverE_eq env { s with running := false }⟩

/-- Claim C5: the shared-root folder path is never written to the
settings store — `init_db` deletes any existing `folder` row, and no
sequence of menu operations (folder changes included) ever writes under
key `folder`, so the store of the supervisor state never holds one. -/
theorem folder_never_persisted (env : Env) (es : List MenuChoice) (st0 : Store)
    (fi : String) :
    storeLookup (init_db st0) "folder" = none ∧
    storeLookup (runMenu env es (startInteractive env st0 fi)).store "folder" = none := by
  refine ⟨storeLookup_init_db_folder st0, ?_⟩
  apply runMenu_store_no_folder
  rw [startInteractive_store]
  exact storeLookup_init_db_folder st0

/-! ## Restart-failure behaviour of the menu loop -/

theorem restartWith_cfg (env : Env) (s : MState) (a b : String) :
    (restartWith env s a b).cfg = s.cfg := by
  unfold restartWith
  rw [tryStop_eq]
  cases hb : env.bindOk s.cfg <;>
    simp [create_server_instance, hb, start_server]

theorem stepMenu_bind_fail (env : Env) (e : MenuChoice) (s : MState) (cand : Cfg)
    (hc : candidate env e s.cfg = some cand) (hb : env.bindOk cand = false) :
    (stepMenu env e s).cfg = cand ∧ (stepMenu env e s).server = none ∧
    (stepMenu env e s).running = false := by
  cases e with
  | changeUser u =>
    by_cases hu : u = ""
    · simp [candidate, hu] at hc
    · simp only [candidate, if_neg hu] at hc
      replace hc := Option.some.inj hc
      subst hc
      simp [stepMenu, hu, restartWith, tryStop_eq, create_server_instance, hb]
  | changePass p =>
    by_cases hp : p = ""
    · simp [candidate, hp] at hc
    · simp only [candidate, if_neg hp] at hc
      replace hc := Option.some.inj hc
      subst hc
      simp [stepMenu, hp, restartWith, tryStop_eq, create_server_instance, hb]
  | changePort inp =>
    by_cases hd : strIsDigit inp = true
    · simp only [candidate, if_pos hd] at hc
      replace hc := Option.some.inj hc
      subst hc
      simp [stepMenu, hd, restartWith, tryStop_eq, create_server_instance, hb]
    · simp [candidate, hd] at hc
  | changeFolder f =>
    by_cases hf : f = ""
    · simp [candidate, hf] at hc
    · simp only [candidate, if_neg hf] at hc
      replace hc := Option.some.inj hc
      subst hc
      simp [stepMenu, hf, restartWith, tryStop_eq, create_server_instance, hb]
  | restartSrv =>
    simp only [candidate] at hc
    replace hc := Option.some.inj hc
    subst hc
    simp [stepMenu, tryStop_eq, create_server_instance, hb]
  | showCreds => simp [candidate] at hc
  | quit => simp [candidate] at hc
  | unknown => simp [candidate] at hc

/-- Claim C1 (code behaviour at a failing input): with every bind
failing, changing the username to `alice` still writes
`username = alice` to the store although the restart failed, and the
same holds for a password change; conversely a successful port change to
2222 writes nothing under `port` (the store keeps the initial default
`2121`). -/
theorem persistence_decoupled_from_restart_eval :
    ((stepMenu envBindNone (MenuChoice.changeUser "alice") runningState).running = false ∧
     (stepMenu envBindNone (MenuChoice.changeUser "alice") runningState).server = none ∧
     storeLookup (stepMenu envBindNone (MenuChoice.changeUser "alice") runningState).store
       "username" = some "alice") ∧
    ((stepMenu envBindNone (MenuChoice.changePass "pw2") runningState).running = false ∧
     storeLookup (stepMenu envBindNone (MenuChoice.changePass "pw2") runningState).store
       "password" = some "pw2") ∧
    ((stepMenu envBindAll (MenuChoice.changePort "2222") runningState).running = true ∧
     (stepMenu envBindAll (MenuChoice.changePort "2222") runningState).cfg.port = 2222 ∧
     storeLookup (stepMenu envBindAll (MenuChoice.changePort "2222") runningState).store
       "port" = some "2121") := by
  decide

/-- Claim C2 counterexample: with only port 2121 bindable and the server
live on 2121, changing the port to 9 fails to restart, yet the current
configuration holds the failed candidate port 9, not the previous
working 2121. -/
theorem failed_candidate_retained_eval :
    runningState.cfg.port = 2121 ∧ runningState.running = true ∧
    (stepMenu envBind2121 (MenuChoice.changePort "9") runningState).cfg.port = 9 ∧
    ¬ ((stepMenu envBind2121 (MenuChoice.changePort "9") runningState).cfg.port = 2121) := by
  decide

/-- Claim C2 (amended): when the restart of a candidate configuration
fails to bind, the supervisor is left stopped with no handle, and the
candidate (not the previous working value) remains as the current
configuration. -/
theorem failed_restart_keeps_candidate (env : Env) (e : MenuChoice) (s : MState)
    (cand : Cfg) (hc : candidate env e s.cfg = some cand)
    (hb : env.bindOk cand = false) :
    (stepMenu env e s).cfg = cand ∧ (stepMenu env e s).server = none ∧
    (stepMenu env e s).running = false :=
  stepMenu_bind_fail env e s cand hc hb

/-- Witness for the amended claim C2 at a concrete input. -/
theorem failed_restart_keeps_candidate_witness :
    (stepMenu envBind2121 (MenuChoice.changePort "9") runningState).cfg
      = { cfg2121 with port := 9 } ∧
    (stepMenu envBind2121 (MenuChoice.changePort "9") runningState).server = none ∧
    (stepMenu envBind2121 (MenuChoice.changePort "9") runningState).running = false :=
  failed_restart_keeps_candidate envBind2121 (MenuChoice.changePort "9") runningState
    { cfg2121 with port := 9 } (by decide) (by decide)

/-- Claim C3 counterexample: the server is live on the previous working
config 2121; a restart whose bind fails leaves the supervisor stopped
with no handle — it does not retain the previous working config
running. -/
theorem previous_config_not_resurrected_eval :
    runningState.running = true ∧ runningState.server = some cfg2121 ∧
    (stepMenu envBindNone MenuChoice.restartSrv runningState).running = false ∧
    (stepMenu envBindNone MenuChoice.restartSrv runningState).server = none := by
  decide

/-- Claim C3 (amended): after any restart whose bind fails the
supervisor ends stopped — `running = false` and no handle retained
(in particular no handle referencing the failed attempt) — whether or
not a previous config was live. -/
theorem failed_restart_ends_stopped (env : Env) (e : MenuChoice) (s : MState)
    (cand : Cfg) (hc : candidate env e s.cfg = some cand)
    (hb : env.bindOk cand = false) :
    (stepMenu env e s).running = false ∧ (stepMenu env e s).server = none := by
  have h := stepMenu_bind_fail env e s cand hc hb
  exact ⟨h.2.2, h.2.1⟩

/-- Witness for the amended claim C3 at a concrete input. -/
theorem failed_restart_ends_stopped_witness :
    (stepMenu envBindNone MenuChoice.restartSrv runningState).running = false ∧
    (stepMenu envBindNone MenuChoice.restartSrv runningState).server = none :=
  failed_restart_ends_stopped envBindNone MenuChoice.restartSrv runningState
    cfg2121 (by decide) (by decide)

/-- Claim C4 counterexample: the input `70000` is outside 1–65535, yet
the change-port operation accepts it — the current configuration is
changed to port 70000 rather than left untouched. -/
theorem out_of_range_port_accepted_eval :
    (stepMenu envBindAll (MenuChoice.changePort "70000") runningState).cfg.port = 70000 ∧
    ¬ ((stepMenu envBindAll (MenuChoice.changePort "70000") runningState).cfg
        = runningState.cfg) := by
  decide

/-- Claim C4 (amended): the change-port operation accepts its input
exactly when the string is non-empty and composed entirely of digits
(Python `isdigit`), with no range check: on digit input the port becomes
the parsed value (and a restart is attempted); on any other input it
reports `Invalid port` and leaves the configuration, handle, running
flag and store untouched. -/
theorem change_port_validation (env : Env) (s : MState) (inp : String) :
    (strIsDigit inp = false →
      (stepMenu env (MenuChoice.changePort inp) s).cfg = s.cfg ∧
      (stepMenu env (MenuChoice.changePort inp) s).server = s.server ∧
      (stepMenu env (MenuChoice.changePort inp) s).running = s.running ∧
      (stepMenu env (MenuChoice.changePort inp) s).store = s.store ∧
      (stepMenu env (MenuChoice.changePort inp) s).output
        = s.output ++ ["Invalid port"]) ∧
    (strIsDigit inp = true →
      (stepMenu env (MenuChoice.changePort inp) s).cfg.port = pyInt inp) := by
  constructor
  · intro hd
    simp [stepMenu, hd]
  · intro hd
    simp only [stepMenu, if_pos hd]
    rw [restartWith_cfg]

/-- Witness for the amended claim C4 at concrete inputs. -/
theorem change_port_validation_witness :
    (stepMenu envBindAll (MenuChoice.changePort "70a") runningState).cfg
      = runningState.cfg ∧
    (stepMenu envBindAll (MenuChoice.changePort "8080") runningState).cfg.port = 8080 := by
  refine ⟨((change_port_validation envBindAll runningState "70a").1 (by decide)).1, ?_⟩
  exact (change_port_validation envBindAll runningState "8080").2 (by decide)

/-! ## Discovery-layer lemmas and claims -/

theorem mem_insertAsc (x a : String) (l : List String) :
    x ∈ insertAsc a l ↔ x = a ∨ x ∈ l := by
  induction l with
  | nil => simp [insertAsc]
  | cons y ys ih =>
    unfold insertAsc
    by_cases h : lexLe a.toList y.toList = true
    · rw [if_pos h]
      simp
    · rw [if_neg h]
      simp only [List.mem_cons, ih]
      tauto

theorem mem_pySorted (x : String) (l : List String) : x ∈ pySorted l ↔ x ∈ l := by
  unfold pySorted
  rw [← List.mem_dedup (a := x) (l := l)]
  generalize l.dedup = d
  induction d with
  | nil => simp
  | cons a d ih =>
    simp only [List.foldr_cons, mem_insertAsc, List.mem_cons, ih]

theorem cleanSpec (ips : List String) :
    (if (pySorted (ips.filter (fun p => !p.isEmpty && !pyStartsWith p "127."))).isEmpty
     then ["127.0.0.1"]
     else pySorted (ips.filter (fun p => !p.isEmpty && !pyStartsWith p "127."))) ≠ [] ∧
    ((if (pySorted (ips.filter (fun p => !p.isEmpty && !pyStartsWith p "127."))).isEmpty
      then ["127.0.0.1"]
      else pySorted (ips.filter (fun p => !p.isEmpty && !pyStartsWith p "127.")))
        = ["127.0.0.1"] ∨
     ∀ x ∈ (if (pySorted (ips.filter (fun p => !p.isEmpty && !pyStartsWith p "127."))).isEmpty
            then ["127.0.0.1"]
            else pySorted (ips.filter (fun p => !p.isEmpty && !pyStartsWith p "127."))),
       x.isEmpty = false ∧ pyStartsWith x "127." = false) := by
  by_cases hcl :
      (pySorted (ips.filter (fun p => !p.isEmpty && !pyStartsWith p "127."))).isEmpty = true
  · rw [if_pos hcl]
    exact ⟨by simp, Or.inl rfl⟩
  · rw [if_neg hcl]
    constructor
    · intro hnil
      rw [hnil] at hcl
      exact hcl rfl
    · right
      intro x hx
      rw [mem_pySorted] at hx
      have hp := (List.mem_filter.mp hx).2
      simp only [Bool.and_eq_true, Bool.not_eq_true'] at hp
      exact hp

/-- Claim C8 counterexample: in an environment where the UDP probe and
the hostname resolution both fail, `get_local_ip` propagates the
exception of its unguarded fallback to the caller. -/
theorem get_local_ip_raises_eval :
    get_local_ip netEnvAllFail = Except.error () := rfl

/-- Claim C8 (amended): `get_all_local_ips` catches every internal
failure and always returns normally; `get_local_ip` returns normally
whenever the UDP probe or the hostname-resolution fallback succeeds (its
fallback is unguarded, so only the case where both fail can raise). -/
theorem discovery_failure_containment (env : NetEnv) :
    (∃ l, get_all_local_ips env = Except.ok l) ∧
    ((env.udpProbe.isSome || env.hostnameResolve.isSome) = true →
      ∃ ip, get_local_ip env = Except.ok ip) := by
  constructor
  · exact ⟨_, rfl⟩
  · intro h
    unfold get_local_ip udpProbeIp hostnameIp
    cases hu : env.udpProbe with
    | some ip => exact ⟨ip, rfl⟩
    | none =>
      cases hh : env.hostnameResolve with
      | some ip => exact ⟨ip, rfl⟩
      | none => simp [hu, hh] at h

/-- Witness for the amended claim C8 at a concrete environment. -/
theorem discovery_failure_containment_witness :
    (∃ l, get_all_local_ips netEnvProbeOnly = Except.ok l) ∧
    (∃ ip, get_local_ip netEnvProbeOnly = Except.ok ip) := by
  have h := discovery_failure_containment netEnvProbeOnly
  exact ⟨h.1, h.2 (by decide)⟩

/-- Claim C9: `get_all_local_ips` always produces a non-empty list;
either every returned address is non-empty and does not start with
`127.`, or nothing non-loopback was found and the result is exactly
`["127.0.0.1"]`. -/
theorem all_local_ips_nonempty (env : NetEnv) (l : List String)
    (h : get_all_local_ips env = Except.ok l) :
    l ≠ [] ∧ (l = ["127.0.0.1"] ∨
      ∀ x ∈ l, x.isEmpty = false ∧ pyStartsWith x "127." = false) := by
  simp only [get_all_local_ips] at h
  replace h := Except.ok.inj h
  subst h
  exact cleanSpec _

/-- Witness for claim C9 at a concrete environment. -/
theorem all_local_ips_nonempty_witness :
    (["10.0.0.5"] : List String) ≠ [] ∧ ((["10.0.0.5"] : List String) = ["127.0.0.1"] ∨
      ∀ x ∈ (["10.0.0.5"] : List String),
        x.isEmpty = false ∧ pyStartsWith x "127." = false) :=
  all_local_ips_nonempty netEnvProbeOnly ["10.0.0.5"] rfl

/-! ## Password-generation lemmas and claim -/

theorem b64d_b64c : ∀ n < 64, b64d (b64c n) = n := by decide

theorem b64_roundtrip : ∀ bs : List Nat, (∀ b ∈ bs, b < 256) →
    b64decodeChars (b64encodeBytes bs) = bs
  | [], _ => rfl
  | [a], h => by
    have ha : a < 256 := h a (by simp)
    simp only [b64encodeBytes, b64decodeChars]
    rw [b64d_b64c (a / 4) (by omega), b64d_b64c (a % 4 * 16) (by omega)]
    have : a / 4 * 4 + a % 4 * 16 / 16 = a := by omega
    rw [this]
  | [a, b], h => by
    have ha : a < 256 := h a (by simp)
    have hb : b < 256 := h b (by simp)
    simp only [b64encodeBytes, b64decodeChars]
    rw [b64d_b64c (a / 4) (by omega), b64d_b64c (a % 4 * 16 + b / 16) (by omega),
      b64d_b64c (b % 16 * 4) (by omega)]
    have e1 : a / 4 * 4 + (a % 4 * 16 + b / 16) / 16 = a := by omega
    have e2 : (a % 4 * 16 + b / 16) % 16 * 16 + b % 16 * 4 / 4 = b := by omega
    rw [e1, e2]
  | a :: b :: c :: rest, h => by
    have ha : a < 256 := h a (by simp)
    have hb : b < 256 := h b (by simp)
    have hc : c < 256 := h c (by simp)
    simp only [b64encodeBytes, b64decodeChars]
    rw [b64d_b64c (a / 4) (by omega), b64d_b64c (a % 4 * 16 + b / 16) (by omega),
      b64d_b64c (b % 16 * 4 + c / 64) (by omega), b64d_b64c (c % 64) (by omega)]
    have e1 : a / 4 * 4 + (a % 4 * 16 + b / 16) / 16 = a := by omega
    have e2 : (a % 4 * 16 + b / 16) % 16 * 16 + (b % 16 * 4 + c / 64) / 4 = b := by omega
    have e3 : (b % 16 * 4 + c / 64) % 4 * 64 + c % 64 = c := by omega
    rw [e1, e2, e3, b64_roundtrip rest (fun x hx => h x (by simp [hx]))]

theorem b64encodeBytes_length : ∀ bs : List Nat, bs.length % 3 = 0 →
    (b64encodeBytes bs).length = bs.length / 3 * 4
  | [], _ => rfl
  | [_], h => by simp at h
  | [_, _], h => by simp at h
  | a :: b :: c :: rest, h => by
    simp only [List.length_cons] at h ⊢
    simp only [b64encodeBytes, List.length_cons]
    rw [b64encodeBytes_length rest (by omega)]
    omega

theorem b64c_mem (n : Nat) : b64c n ∈ b64Alphabet := by
  unfold b64c
  rcases Nat.lt_or_ge n b64Alphabet.length with h | h
  · rw [List.getD_eq_getElem _ _ h]
    exact List.getElem_mem h
  · rw [List.getD_eq_default _ _ h]
    decide

theorem b64encodeBytes_mem_alphabet :
    ∀ bs : List Nat, ∀ c ∈ b64encodeBytes bs, c ∈ b64Alphabet
  | [], c, hc => by simp [b64encodeBytes] at hc
  | [a], c, hc => by
    simp only [b64encodeBytes, List.mem_cons, List.not_mem_nil, or_false] at hc
    rcases hc with rfl | rfl <;> exact b64c_mem _
  | [a, b], c, hc => by
    simp only [b64encodeBytes, List.mem_cons, List.not_mem_nil, or_false] at hc
    rcases hc with rfl | rfl | rfl <;> exact b64c_mem _
  | a :: b :: c2 :: rest, c, hc => by
    simp only [b64encodeBytes, List.mem_cons] at hc
    rcases hc with rfl | rfl | rfl | rfl | hc
    · exact b64c_mem _
    · exact b64c_mem _
    · exact b64c_mem _
    · exact b64c_mem _
    · exact b64encodeBytes_mem_alphabet rest c hc

theorem token_urlsafe_inj (r1 r2 : List Nat) (h1 : ∀ b ∈ r1, b < 256)
    (h2 : ∀ b ∈ r2, b < 256) (he : token_urlsafe r1 = token_urlsafe r2) :
    r1 = r2 := by
  unfold token_urlsafe at he
  have hd := congrArg String.data he
  have hdec := congrArg b64decodeChars hd
  rwa [b64_roundtrip r1 h1, b64_roundtrip r2 h2] at hdec

/-- Claim C7: when the configured password is empty the service runs
with `secrets.token_urlsafe(12)` of 12 random source bytes — a non-empty
16-character string over the URL-safe base64 alphabet — and that
password appears on the console `password:` line; two generations from
different random bytes differ. -/
theorem generated_password_secure (stored : String) (r1 r2 : List Nat)
    (hs : stored = "") (h1len : r1.length = 12) (h1 : ∀ b ∈ r1, b < 256)
    (h2len : r2.length = 12) (h2 : ∀ b ∈ r2, b < 256) (hne : r1 ≠ r2)
    (ip user : String) (port : Nat) (ips : List String) :
    resolvePassword stored r1 ≠ "" ∧
    (resolvePassword stored r1).length = 16 ∧
    (∀ c ∈ (resolvePassword stored r1).toList, c ∈ b64Alphabet) ∧
    resolvePassword stored r2 ≠ resolvePassword stored r1 ∧
    ("password: " ++ resolvePassword stored r1)
      ∈ infoLines ip port user (resolvePassword stored r1) ips := by
  subst hs
  simp only [resolvePassword, if_pos rfl]
  have hlen : (token_urlsafe r1).length = 16 := by
    show (b64encodeBytes r1).length = 16
    rw [b64encodeBytes_length r1 (by rw [h1len])]
    rw [h1len]
  have hne1 : token_urlsafe r1 ≠ "" := by
    intro hemp
    rw [hemp] at hlen
    simp at hlen
  have halpha : ∀ c ∈ (token_urlsafe r1).toList, c ∈ b64Alphabet := fun c hc =>
    b64encodeBytes_mem_alphabet r1 c hc
  have hdiff : token_urlsafe r2 ≠ token_urlsafe r1 := fun he =>
    hne (token_urlsafe_inj r1 r2 h1 h2 he.symm)
  exact ⟨hne1, hlen, halpha, hdiff, by simp [infoLines]⟩

/-- Witness for claim C7 at concrete random bytes. -/
theorem generated_password_secure_witness :
    resolvePassword "" (List.replicate 12 0) ≠ "" ∧
    (resolvePassword "" (List.replicate 12 0)).length = 16 ∧
    resolvePassword "" (1 :: List.replicate 11 0)
      ≠ resolvePassword "" (List.replicate 12 0) := by
  have h := generated_password_secure "" (List.replicate 12 0) (1 :: List.replicate 11 0)
    rfl (by decide) (by decide) (by decide) (by decide) (by decide) "ip" "user" 2121 []
  exact ⟨h.1, h.2.1, h.2.2.2.1⟩

/-! ## Non-interactive argument claims -/

theorem scanArg_fst_some (f : String) (x : Option String) (a : String) :
    ∃ y, scanArg (some f, x) a = (some f, y) := by
  unfold scanArg
  split_ifs with h1 h2 h3
  · exact ⟨x, rfl⟩
  · simp at h2
  · exact ⟨some a, rfl⟩
  · exact ⟨x, rfl⟩

theorem foldl_scanArg_fst (l : List String) (f : String) (x : Option String) :
    (l.foldl scanArg (some f, x)).1 = some f := by
  induction l generalizing x with
  | nil => rfl
  | cons a rest ih =>
    rw [List.foldl_cons]
    obtain ⟨y, hy⟩ := scanArg_fst_some f x a
    rw [hy]
    exact ih y

theorem scanArg_full (f p a : String) :
    scanArg (some f, some p) a = (some f, some p) := by
  unfold scanArg
  split_ifs <;> simp_all

theorem foldl_scanArg_full (l : List String) (f p : String) :
    l.foldl scanArg (some f, some p) = (some f, some p) := by
  induction l with
  | nil => rfl
  | cons a rest ih =>
    rw [List.foldl_cons, scanArg_full]
    exact ih

theorem scanArg_first (a : String) (h : pyStartsWith a "--" = false) :
    scanArg (none, none) a = (some a, none) := by
  unfold scanArg
  have hni : a ≠ "--noninteractive" := by
    intro hEq
    rw [hEq] at h
    exact absurd h (by decide)
  rw [if_neg hni]
  simp [h]

theorem scanArg_second (a b : String) (hb : pyStartsWith b "--" = false) :
    scanArg (some a, none) b = (some a, some b) := by
  unfold scanArg
  have hni : b ≠ "--noninteractive" := by
    intro hEq
    rw [hEq] at hb
    exact absurd hb (by decide)
  rw [if_neg hni]
  simp [hb]

theorem parsePositionals_first (a : String) (rest : List String)
    (h : pyStartsWith a "--" = false) :
    (parsePositionals (a :: rest)).1 = some a := by
  unfold parsePositionals
  rw [List.foldl_cons, scanArg_first a h]
  exact foldl_scanArg_fst rest a none

theorem parsePositionals_second (a b : String) (rest : List String)
    (ha : pyStartsWith a "--" = false) (hb : pyStartsWith b "--" = false) :
    (parsePositionals (a :: b :: rest)).2 = some b := by
  unfold parsePositionals
  rw [List.foldl_cons, scanArg_first a ha, List.foldl_cons, scanArg_second a b hb,
    foldl_scanArg_full]

/-- Claim C10: in non-interactive mode the first non-flag positional
argument becomes the folder (through `abspath`; an empty argument and
the cwd fallback resolve to the same absolute path) and the second
becomes the port argument; a port argument that is absent or not
composed entirely of digits is silently ignored and the port is read
from the store — the stored value when one exists, 2121 after `init_db`
of a store with no `port` row. -/
theorem noninteractive_defaults (a b p v cwd : String) (rest rest2 : List String)
    (st0 st1 : Store)
    (ha : pyStartsWith a "--" = false) (hb2 : pyStartsWith b "--" = false)
    (hcwd : pyStartsWith cwd "/" = true)
    (hport : storeLookup st0 "port" = none)
    (hv : storeLookup st1 "port" = some v) :
    (parsePositionals (a :: rest)).1 = some a ∧
    (parsePositionals (a :: b :: rest2)).2 = some b ∧
    chooseFolder (some a) (init_db st0) cwd = abspath cwd a ∧
    (strIsDigit p = false → choosePort (some p) st1 = pyInt v) ∧
    (strIsDigit p = false → choosePort (some p) (init_db st0) = 2121) ∧
    choosePort none (init_db st0) = 2121 := by
  have hfolder : get_setting (init_db st0) "folder" cwd = cwd := by
    unfold get_setting
    rw [storeLookup_init_db_folder]
  have hport2121 : get_setting (init_db st0) "port" "2121" = "2121" := by
    unfold get_setting
    rw [storeLookup_init_db_port st0 hport]
  refine ⟨parsePositionals_first a rest ha, parsePositionals_second a b rest2 ha hb2,
    ?_, ?_, ?_, ?_⟩
  · unfold chooseFolder
    show abspath cwd (if a = "" then get_setting (init_db st0) "folder" cwd else a)
      = abspath cwd a
    by_cases hae : a = ""
    · rw [if_pos hae, hfolder, hae]
      unfold abspath
      rw [if_neg (by intro hc; rw [hc] at hcwd; exact absurd hcwd (by decide)),
        if_pos hcwd, if_pos rfl]
    · rw [if_neg hae]
  · intro hd
    unfold choosePort
    show (if strIsDigit p = true then pyInt p else pyInt (get_setting st1 "port" "2121"))
      = pyInt v
    rw [if_neg (by simp [hd])]
    unfold get_setting
    rw [hv]
  · intro hd
    unfold choosePort
    show (if strIsDigit p = true then pyInt p
          else pyInt (get_setting (init_db st0) "port" "2121")) = 2121
    rw [if_neg (by simp [hd]), hport2121]
    decide
  · unfold choosePort
    show pyInt (get_setting (init_db st0) "port" "2121") = 2121
    rw [hport2121]
    decide

/-- Witness for claim C10 at concrete arguments and stores. -/
theorem noninteractive_defaults_witness :
    (parsePositionals ["share", "--noninteractive"]).1 = some "share" ∧
    (parsePositionals ["share", "8080"]).2 = some "8080" ∧
    chooseFolder (some "share") (init_db []) "/home" = abspath "/home" "share" ∧
    (strIsDigit "80x" = false → choosePort (some "80x") [("port", "2525")] = pyInt "2525") ∧
    (strIsDigit "80x" = false → choosePort (some "80x") (init_db []) = 2121) ∧
    choosePort none (init_db []) = 2121 :=
  noninteractive_defaults "share" "8080" "80x" "2525" "/home"
    ["--noninteractive"] [] [] [("port", "2525")]
    (by decide) (by decide) (by decide) (by decide) (by decide)
